import Mathlib

/-!
Shallow embedding of `src/weather/main.py`: an MCP weather server with an
HTTP adapter (`makeNwsRequest`) and two tool handlers (`getAlerts`,
`getForecast`) plus a formatter (`formatAlert`).

Modelling conventions:
* JSON values (the result of `response.json()`) are the inductive `Json`.
  JSON numbers are modelled as integers (no claim depends on float payloads);
  Python's `None` and JSON `null` are both `Json.null` — both are falsy, so
  the handlers treat `some Json.null` and `none` identically.
* A Python exception escaping a handler is modelled by `Except.error` with a
  `PyErr` naming the exception class; a returned string is `Except.ok`.
* The HTTP transport is an explicit parameter `transport : String → HttpOutcome`
  giving, per URL, either a transport-level error (DNS failure, refused
  connection, timeout — anything raised by `client.get`) or a response with a
  status code and the result of JSON-parsing its body (`none` = malformed body,
  i.e. `response.json()` raises).
* Coordinates are modelled by their decimal string rendering (Python
  interpolates `str(latitude)` into the URL); no claim depends on numeric
  properties of the coordinates, only on which URL is fetched.
-/

/-- A JSON value as produced by `response.json()` in Python. Objects are
association lists with distinct keys (Python dicts from the JSON parser). -/
inductive Json where
  | null
  | bool (b : Bool)
  | num (n : Int)
  | str (s : String)
  | arr (elems : List Json)
  | obj (fields : List (String × Json))
deriving Repr

/-- Python exception classes that the embedded code can raise. -/
inductive PyErr where
  | typeError
  | keyError
  | attributeError
deriving DecidableEq, Repr

/-- Python truthiness of a JSON-derived value (`bool(x)`): `None`, `False`,
`0`, `""`, `[]` and `{}` are falsy, everything else truthy. -/
def Json.falsy : Json → Bool
  | .null => true
  | .bool b => !b
  | .num n => n == 0
  | .str s => s.isEmpty
  | .arr elems => elems.isEmpty
  | .obj fields => fields.isEmpty

/-- First binding of a key in an association list (the JSON parser yields
dicts with distinct keys, so first = only). -/
def lookupField (fields : List (String × Json)) (k : String) : Option Json :=
  (fields.find? (fun p => p.1 == k)).map (fun p => p.2)

/-- Python `k in x` for a string `k`: dict key membership, list element
equality (a string compares unequal to every non-string, without error),
substring test on strings, `TypeError` on scalars. -/
def pyContains (k : String) : Json → Except PyErr Bool
  | .obj fields => .ok (fields.any (fun p => p.1 == k))
  | .arr elems => .ok (elems.any (fun e => match e with | .str s => s == k | _ => false))
  | .str s => .ok (decide ((s.splitOn k).length > 1))
  | _ => .error .typeError

/-- Python `x[k]` for a string key `k`: dict lookup (`KeyError` when absent),
`TypeError` on every non-dict (list and str indices must be integers). -/
def pyGetItem (x : Json) (k : String) : Except PyErr Json :=
  match x with
  | .obj fields =>
    match lookupField fields k with
    | some v => .ok v
    | none => .error .keyError
  | _ => .error .typeError

/-- Python `x.get(k, default)`: dict lookup with default; `AttributeError`
when `x` is not a dict (no `.get` attribute on lists, strings, scalars). -/
def pyDictGet (x : Json) (k : String) (default : Json) : Except PyErr Json :=
  match x with
  | .obj fields => .ok ((lookupField fields k).getD default)
  | _ => .error .attributeError

/-- Python iteration `for e in x`: lists yield their elements, strings their
one-character substrings, dicts their keys; scalars raise `TypeError`. -/
def pyIter : Json → Except PyErr (List Json)
  | .arr elems => .ok elems
  | .str s => .ok (s.toList.map (fun c => Json.str (String.mk [c])))
  | .obj fields => .ok (fields.map (fun p => Json.str p.1))
  | _ => .error .typeError

/-- Python slice `x[:5]`: list prefix, string prefix, `TypeError` otherwise. -/
def pySlice5 : Json → Except PyErr Json
  | .arr elems => .ok (.arr (elems.take 5))
  | .str s => .ok (.str (s.take 5))
  | _ => .error .typeError

mutual
/-- Python `repr` of a JSON-derived value (strings get quotes; containers
render their parts with `repr`). String escaping inside `repr` is elided —
no claim renders a container holding quote characters. -/
def pyRepr : Json → String
  | .null => "None"
  | .bool b => if b then "True" else "False"
  | .num n => toString n
  | .str s => "'" ++ s ++ "'"
  | .arr elems => "[" ++ pyReprElems elems ++ "]"
  | .obj fields => "\x7b" ++ pyReprFields fields ++ "\x7d"

/-- Comma-separated `repr`s of list elements. -/
def pyReprElems : List Json → String
  | [] => ""
  | [x] => pyRepr x
  | x :: y :: rest => pyRepr x ++ ", " ++ pyReprElems (y :: rest)

/-- Comma-separated `'key': repr(value)` renderings of dict entries. -/
def pyReprFields : List (String × Json) → String
  | [] => ""
  | [(k, v)] => "'" ++ k ++ "': " ++ pyRepr v
  | (k, v) :: y :: rest => "'" ++ k ++ "': " ++ pyRepr v ++ ", " ++ pyReprFields (y :: rest)
end

/-- Python `str(x)` as used by f-string interpolation: identity on strings,
`repr` otherwise (for ints, bools, `None`, lists, dicts, `str` and `repr`
agree). -/
def pyStr (x : Json) : String :=
  match x with
  | .str s => s
  | _ => pyRepr x

/-- Sequential effectful map, modelling a Python list comprehension
`[f(e) for e in xs]`: the first raising element aborts the whole
comprehension with its exception. -/
def mapExcept (f : Json → Except PyErr String) : List Json → Except PyErr (List String)
  | [] => .ok []
  | x :: xs => do
    let y ← f x
    let ys ← mapExcept f xs
    .ok (y :: ys)

/-! ## Constants and the HTTP adapter (`makeNwsRequest`) -/

def NWS_API_BASE : String := "https://api.weather.gov"

def USER_AGENT : String := "weather-app/1.0"

/-- The fixed request headers sent by the adapter. -/
def requestHeaders : List (String × String) :=
  [("User-Agent", USER_AGENT), ("Accept", "application/geo+json")]

/-- The fixed per-request timeout, in seconds. -/
def requestTimeoutSeconds : Nat := 30

/-- Outcome of one attempted HTTP GET: either a transport-level error (DNS,
connection refused, timeout — `client.get` raises) or a response carrying its
status code and the result of JSON-parsing its body (`none` = malformed body,
`response.json()` raises). -/
inductive HttpOutcome where
  | transportError
  | response (status : Nat) (parsed : Option Json)

/-- `makeNwsRequest(url)`: issue the GET via the transport; inside the
`try/except` block, `raise_for_status()` raises on any status outside
200..299 and `response.json()` raises on a malformed body; every exception
is caught and converted to the `None` sentinel. -/
def makeNwsRequest (transport : String → HttpOutcome) (url : String) : Option Json :=
  match transport url with
  | .transportError => none
  | .response status parsed =>
    if 200 ≤ status ∧ status < 300 then parsed else none

/-- The adapter as called with an arbitrary Python value as `url` (the
unvalidated `points_data["properties"]["forecast"]`): a non-string URL makes
`client.get` raise inside the `try`, which is caught, yielding `None`. -/
def makeNwsRequestJson (transport : String → HttpOutcome) (url : Json) : Option Json :=
  match url with
  | .str s => makeNwsRequest transport s
  | _ => none

/-- Spec predicate for C1: the transport outcome at `url` is a failure —
transport-level error, non-2xx status, or a body that fails JSON parsing. -/
def failingOutcome : HttpOutcome → Bool
  | .transportError => true
  | .response status parsed => decide (status < 200) || decide (300 ≤ status) || parsed.isNone

/-! ## Formatter (`formatAlert`) and the tool handlers -/

/-- `formatAlert(feature)`: reads `feature["properties"]` (may raise), then
builds the labelled block with `.get` defaults for each optional field. The
string literal reproduces the source's triple-quoted f-string, including its
leading newline and four-space indentation. -/
def formatAlert (feature : Json) : Except PyErr String := do
  let props ← pyGetItem feature "properties"
  let event ← pyDictGet props "event" (Json.str "Unknown")
  let area ← pyDictGet props "areaDesc" (Json.str "Unknown")
  let severity ← pyDictGet props "severity" (Json.str "Unknown")
  let description ← pyDictGet props "description" (Json.str "No description available")
  let instruction ← pyDictGet props "instruction" (Json.str "No specific instructions provided")
  return "\n    Event: " ++ pyStr event ++
    "\n    Area: " ++ pyStr area ++
    "\n    Severity: " ++ pyStr severity ++
    "\n    Description: " ++ pyStr description ++
    "\n    Instructions: " ++ pyStr instruction ++
    "\n    "

/-- The alerts URL `f"{NWS_API_BASE}/alerts/active/area/{state}"`. -/
def alertsUrl (state : String) : String :=
  NWS_API_BASE ++ "/alerts/active/area/" ++ state

/-- The body of `getAlerts` after the adapter call, on the adapter's result
`data`: `if not data or "features" not in data`, then
`if not data["features"]`, then the comprehension over `data["features"]`
joined with `"\n---\n"`. -/
def getAlertsData (data : Option Json) : Except PyErr String :=
  match data with
  | none => .ok "Unable to fetch alerts or no alerts found."
  | some d =>
    if d.falsy then .ok "Unable to fetch alerts or no alerts found."
    else do
      let hasFeatures ← pyContains "features" d
      if !hasFeatures then
        return "Unable to fetch alerts or no alerts found."
      let features ← pyGetItem d "features"
      if features.falsy then
        return "No active alerts for this state."
      let elems ← pyIter features
      let alerts ← mapExcept formatAlert elems
      return String.intercalate "\n---\n" alerts

/-- `getAlerts(state)`: build the alerts URL, call the adapter, then the
result-processing body. -/
def getAlerts (transport : String → HttpOutcome) (state : String) : Except PyErr String :=
  getAlertsData (makeNwsRequest transport (alertsUrl state))

/-- The points URL `f"{NWS_API_BASE}/points/{latitude},{longitude}"`
(coordinates already rendered to their decimal strings). -/
def pointsUrl (latitude longitude : String) : String :=
  NWS_API_BASE ++ "/points/" ++ latitude ++ "," ++ longitude

/-- `x["properties"][k]`: the unguarded nested access pattern used twice in
`getForecast`. -/
def propsField (x : Json) (k : String) : Except PyErr Json := do
  let props ← pyGetItem x "properties"
  pyGetItem props k

/-- The loop body of `getForecast`: the triple-quoted f-string formatting one
period, reading the six required keys (each read may raise `KeyError`), with
the source's twelve-space indentation. -/
def formatForecastPeriod (period : Json) : Except PyErr String := do
  let name ← pyGetItem period "name"
  let temperature ← pyGetItem period "temperature"
  let temperatureUnit ← pyGetItem period "temperatureUnit"
  let windSpeed ← pyGetItem period "windSpeed"
  let windDirection ← pyGetItem period "windDirection"
  let detailedForecast ← pyGetItem period "detailedForecast"
  return "\n            " ++ pyStr name ++
    ":\n            Temperature: " ++ pyStr temperature ++ "°" ++ pyStr temperatureUnit ++
    "\n            Wind: " ++ pyStr windSpeed ++ " " ++ pyStr windDirection ++
    "\n            Forecast: " ++ pyStr detailedForecast ++
    "\n            "

/-- The URLs actually requested when the adapter is handed `url` as a Python
value: a string URL reaches the transport, a non-string raises before any
request is issued. -/
def urlTrace (url : Json) : List String :=
  match url with
  | .str s => [s]
  | _ => []

/-- `getForecast(latitude, longitude)` instrumented with the list of URLs it
hands to the transport (first component: the returned string or the escaping
exception; second: the requested URLs, in order). -/
def getForecastT (transport : String → HttpOutcome) (latitude longitude : String) :
    Except PyErr String × List String :=
  let points_url := pointsUrl latitude longitude
  match makeNwsRequest transport points_url with
  | none => (.ok "Unable to fetch forecast data for this location.", [points_url])
  | some points_data =>
    if points_data.falsy then
      (.ok "Unable to fetch forecast data for this location.", [points_url])
    else
      match propsField points_data "forecast" with
      | .error e => (.error e, [points_url])
      | .ok forecast_url =>
        let trace := points_url :: urlTrace forecast_url
        match makeNwsRequestJson transport forecast_url with
        | none => (.ok "Unable to fetch detailed forecast.", trace)
        | some forecast_data =>
          if forecast_data.falsy then
            (.ok "Unable to fetch detailed forecast.", trace)
          else
            match propsField forecast_data "periods" with
            | .error e => (.error e, trace)
            | .ok periods =>
              match (do
                  let sliced ← pySlice5 periods
                  let elems ← pyIter sliced
                  mapExcept formatForecastPeriod elems : Except PyErr (List String)) with
              | .error e => (.error e, trace)
              | .ok forecasts => (.ok (String.intercalate "\n---\n" forecasts), trace)

/-- `getForecast(latitude, longitude)`: the returned string (or the escaping
exception), forgetting the request trace. -/
def getForecast (transport : String → HttpOutcome) (latitude longitude : String) :
    Except PyErr String :=
  (getForecastT transport latitude longitude).1

/-! ## Predicates and fixtures used by the claim statements -/

/-- A feature the formatter handles without raising: a dict whose
`"properties"` entry is itself a dict. -/
def wellFormedFeature (f : Json) : Bool :=
  match f with
  | .obj fields =>
    match lookupField fields "properties" with
    | some (.obj _) => true
    | _ => false
  | _ => false

/-- An acceptable `"features"` lookup result: absent, falsy (empty list and
the like), or a list of well-formed features. -/
def wellFormedFeatures : Option Json → Bool
  | none => true
  | some (.arr feats) => feats.all wellFormedFeature
  | some v => v.falsy

/-- Adapter results under which `getAlerts` is exception-free: the `None`
sentinel, or a dict (per the adapter's declared `Optional[Dict]` return type)
whose `"features"` entry is absent, falsy, or a list of well-formed features.
-/
def wellFormedAlertsData : Option Json → Bool
  | none => true
  | some (.obj fields) => wellFormedFeatures (lookupField fields "features")
  | some _ => false

/-- Builds the `properties` entries of an alert feature from five optional
field values (absent `Option` = absent dict key). -/
def optField (k : String) : Option String → List (String × Json)
  | none => []
  | some s => [(k, Json.str s)]

/-- Fixture: a transport whose (2xx, well-parsed) alerts response contains
one feature that lacks the `"properties"` key. -/
def alertsTransportNoProps : String → HttpOutcome := fun _ =>
  .response 200 (some (Json.obj [("features", Json.arr [Json.obj []])]))

/-- Fixture: a transport whose alerts response holds one well-formed feature. -/
def alertsTransportOneFeature : String → HttpOutcome := fun _ =>
  .response 200 (some (Json.obj [("features",
    Json.arr [Json.obj [("properties", Json.obj [("event", Json.str "Flood Warning")])]])]))

/-- Fixture: a grid-point forecast URL used by the `getForecast` scenarios. -/
def gridForecastUrl : String :=
  "https://api.weather.gov/gridpoints/TOP/31,80/forecast"

/-- Fixture: a points-lookup response carrying `gridForecastUrl` under
`properties.forecast`. -/
def pointsDataWithForecast : Json :=
  Json.obj [("properties", Json.obj [("forecast", Json.str gridForecastUrl)])]

/-- Fixture: every URL answers 200 with `{"properties": {}}` — truthy, but
without `properties.forecast`. -/
def pointsTransportNoForecast : String → HttpOutcome := fun _ =>
  .response 200 (some (Json.obj [("properties", Json.obj [])]))

/-- Fixture: the points lookup resolves to `gridForecastUrl`, which answers
200 with `{"properties": {}}` — truthy, but without `properties.periods`. -/
def forecastTransportNoPeriods : String → HttpOutcome := fun url =>
  if url == gridForecastUrl then
    .response 200 (some (Json.obj [("properties", Json.obj [])]))
  else
    .response 200 (some pointsDataWithForecast)

/-- Fixture: the points lookup resolves to `gridForecastUrl`, whose request
then fails at the transport level. -/
def forecastTransportSecondFails : String → HttpOutcome := fun url =>
  if url == gridForecastUrl then .transportError
  else .response 200 (some pointsDataWithForecast)

/-- Fixture: a fully-populated forecast period named `i`. -/
def periodFixture (i : String) : Json :=
  Json.obj [("name", Json.str i), ("temperature", Json.num 70),
    ("temperatureUnit", Json.str "F"), ("windSpeed", Json.str "5 mph"),
    ("windDirection", Json.str "NW"), ("detailedForecast", Json.str "Sunny")]

/-- Fixture: the block `formatForecastPeriod` produces for `periodFixture i`. -/
def periodBlock (i : String) : String :=
  "\n            " ++ i ++
    ":\n            Temperature: 70°F\n            Wind: 5 mph NW\n            Forecast: Sunny\n            "

/-- Fixture: seven fully-populated forecast periods. -/
def sevenPeriods : List Json :=
  ["P1", "P2", "P3", "P4", "P5", "P6", "P7"].map periodFixture

/-- Fixture: a forecast response carrying `sevenPeriods` under
`properties.periods`. -/
def forecastDataSeven : Json :=
  Json.obj [("properties", Json.obj [("periods", Json.arr sevenPeriods)])]

/-- Fixture: the points lookup resolves to `gridForecastUrl`, which answers
with the seven-period forecast. -/
def forecastTransportSeven : String → HttpOutcome := fun url =>
  if url == gridForecastUrl then .response 200 (some forecastDataSeven)
  else .response 200 (some pointsDataWithForecast)

/-- Fixture: every URL answers 200 with a truthy dict that has no
`"features"` entry. -/
def alertsTransportNoFeatures : String → HttpOutcome := fun _ =>
  .response 200 (some (Json.obj [("title", Json.str "watches and warnings")]))

/-- Fixture: every URL answers 200 with `{"features": []}`. -/
def alertsTransportEmptyFeatures : String → HttpOutcome := fun _ =>
  .response 200 (some (Json.obj [("features", Json.arr [])]))

/-- Fixture: an alert feature with two populated optional fields. -/
def alertFeatureFlood : Json :=
  Json.obj [("properties", Json.obj
    [("event", Json.str "Flood Warning"), ("severity", Json.str "Severe")])]

/-- Fixture: an alert feature with an empty `properties` dict. -/
def alertFeatureBare : Json := Json.obj [("properties", Json.obj [])]

/-- Fixture: the block `formatAlert` produces for `alertFeatureFlood`. -/
def alertBlockFlood : String :=
  "\n    Event: Flood Warning\n    Area: Unknown\n    Severity: Severe\n    Description: No description available\n    Instructions: No specific instructions provided\n    "

/-- Fixture: the block `formatAlert` produces for `alertFeatureBare`. -/
def alertBlockBare : String :=
  "\n    Event: Unknown\n    Area: Unknown\n    Severity: Unknown\n    Description: No description available\n    Instructions: No specific instructions provided\n    "

/-- Fixture: every URL answers 200 with a two-feature alerts collection. -/
def alertsTransportTwoFeatures : String → HttpOutcome := fun _ =>
  .response 200 (some (Json.obj [("features",
    Json.arr [alertFeatureFlood, alertFeatureBare])]))

/-- Fixture: the points lookup resolves to `gridForecastUrl`, which answers
with a forecast whose `properties.periods` is the empty list. -/
def forecastTransportEmptyPeriods : String → HttpOutcome := fun url =>
  if url == gridForecastUrl then
    .response 200 (some (Json.obj [("properties", Json.obj [("periods", Json.arr [])])]))
  else .response 200 (some pointsDataWithForecast)

/-- Fixture: every URL answers 200 with the empty JSON object `{}`. -/
def pointsTransportEmptyObj : String → HttpOutcome := fun _ =>
  .response 200 (some (Json.obj []))

/-! ## Helper lemmas -/

theorem lookupField_isSome (fields : List (String × Json)) (k : String) :
    (lookupField fields k).isSome = fields.any (fun p => p.1 == k) := by
  induction fields with
  | nil => rfl
  | cons p fields ih =>
    by_cases h : p.1 == k
    · simp [lookupField, List.find?, h]
    · simpa [lookupField, List.find?, h] using ih

theorem mapExcept_length (f : Json → Except PyErr String) :
    ∀ xs ys, mapExcept f xs = Except.ok ys → ys.length = xs.length := by
  intro xs
  induction xs with
  | nil =>
    intro ys h
    simp only [mapExcept] at h
    cases h
    rfl
  | cons x xs ih =>
    intro ys h
    simp only [mapExcept] at h
    cases hf : f x with
    | error e => rw [hf] at h; cases h
    | ok y =>
      rw [hf] at h
      cases hr : mapExcept f xs with
      | error e => rw [hr] at h; cases h
      | ok ys' =>
        rw [hr] at h
        cases h
        simp [ih ys' hr]

theorem exceptBind_ok {α β : Type} (a : α) (f : α → Except PyErr β) :
    (Except.ok a : Except PyErr α) >>= f = f a := rfl

theorem exceptBind_error {α β : Type} (e : PyErr) (f : α → Except PyErr β) :
    (Except.error e : Except PyErr α) >>= f = Except.error e := rfl

theorem exceptPure {α : Type} (a : α) : (pure a : Except PyErr α) = Except.ok a := rfl

theorem exceptMap_ok {α β : Type} (g : α → β) (a : α) :
    (g <$> (Except.ok a : Except PyErr α)) = Except.ok (g a) := rfl

theorem exceptMap_error {α β : Type} (g : α → β) (e : PyErr) :
    (g <$> (Except.error e : Except PyErr α)) = Except.error e := rfl

/-- A well-formed feature is formatted without an exception. -/
theorem formatAlert_wellFormed (f : Json) (h : wellFormedFeature f = true) :
    ∃ s, formatAlert f = Except.ok s := by
  cases f with
  | obj fields =>
    simp only [wellFormedFeature] at h
    cases hp : lookupField fields "properties" with
    | none => rw [hp] at h; cases h
    | some props =>
      rw [hp] at h
      cases props <;>
        simp_all [formatAlert, pyGetItem, pyDictGet, hp, exceptBind_ok, exceptBind_error]
  | null => cases h
  | bool b => cases h
  | num n => cases h
  | str s => cases h
  | arr elems => cases h

/-- A list of well-formed features is formatted elementwise without an
exception. -/
theorem mapExcept_formatAlert_wellFormed (feats : List Json)
    (h : feats.all wellFormedFeature = true) :
    ∃ blocks, mapExcept formatAlert feats = Except.ok blocks := by
  induction feats with
  | nil => exact ⟨[], rfl⟩
  | cons f feats ih =>
    simp only [List.all_cons, Bool.and_eq_true] at h
    obtain ⟨s, hs⟩ := formatAlert_wellFormed f h.1
    obtain ⟨blocks, hb⟩ := ih h.2
    exact ⟨s :: blocks, by simp [mapExcept, hs, hb, exceptBind_ok]⟩

/-! ## Claim theorems -/

/-- C1: whenever the transport outcome for the requested URL is a failure —
a non-2xx HTTP status, a timeout or other transport-level error, or a body
that fails JSON parsing — `makeNwsRequest` returns the `None` sentinel (and,
being a total function into `Option`, raises nothing to its caller). -/
theorem makeNwsRequest_failure_yields_none (transport : String → HttpOutcome)
    (url : String) (h : failingOutcome (transport url) = true) :
    makeNwsRequest transport url = none := by
  cases htu : transport url with
  | transportError => simp [makeNwsRequest, htu]
  | response status parsed =>
    rw [htu] at h
    simp only [failingOutcome, Bool.or_eq_true, decide_eq_true_eq,
      Option.isNone_iff_eq_none] at h
    by_cases hin : 200 ≤ status ∧ status < 300
    · rcases h with (h | h) | h
      · omega
      · omega
      · simp [makeNwsRequest, htu, hin, h]
    · simp [makeNwsRequest, htu, hin]

theorem makeNwsRequest_failure_yields_none_witness :
    failingOutcome
      ((fun _ => HttpOutcome.response 404 (some Json.null))
        "https://api.weather.gov/alerts/active/area/CA") = true ∧
    makeNwsRequest (fun _ => HttpOutcome.response 404 (some Json.null))
      "https://api.weather.gov/alerts/active/area/CA" = none :=
  ⟨rfl, makeNwsRequest_failure_yields_none _ _ rfl⟩

/-- C2 counterexample: with a successful response whose single feature lacks
`"properties"`, `formatAlert` raises `KeyError` and the exception escapes
`getAlerts` — the call does not resolve to any string at all. -/
theorem getAlerts_keyError_escapes :
    getAlerts alertsTransportNoProps "CA" = Except.error PyErr.keyError := by rfl

/-- C2 amended: when the adapter result is the sentinel or a dict whose
`"features"` entry (if present and truthy) is a list of features that each
carry a `"properties"` dict, no exception escapes `getAlerts`: the call
resolves to one of the two literal fallback strings or to the join of the
successfully formatted feature blocks. -/
theorem getAlerts_wellFormed_no_exception (transport : String → HttpOutcome)
    (state : String)
    (h : wellFormedAlertsData (makeNwsRequest transport (alertsUrl state)) = true) :
    ∃ s, getAlerts transport state = Except.ok s ∧
      (s = "Unable to fetch alerts or no alerts found." ∨
       s = "No active alerts for this state." ∨
       ∃ blocks : List String, s = String.intercalate "\n---\n" blocks ∧
         ∃ feats : List Json, mapExcept formatAlert feats = Except.ok blocks) := by
  unfold getAlerts
  cases hd : makeNwsRequest transport (alertsUrl state) with
  | none =>
    exact ⟨"Unable to fetch alerts or no alerts found.", rfl, Or.inl rfl⟩
  | some d =>
    rw [hd] at h
    cases d with
    | obj fields =>
      simp only [wellFormedAlertsData] at h
      by_cases hemp : fields.isEmpty
      · refine ⟨"Unable to fetch alerts or no alerts found.", ?_, Or.inl rfl⟩
        simp [getAlertsData, Json.falsy, hemp]
      · cases hlk : lookupField fields "features" with
        | none =>
          have hany : (fields.any fun p => p.1 == "features") = false := by
            rw [← lookupField_isSome, hlk]; rfl
          refine ⟨"Unable to fetch alerts or no alerts found.", ?_, Or.inl rfl⟩
          simp [getAlertsData, Json.falsy, hemp, pyContains, hany,
            exceptBind_ok, exceptPure]
        | some v =>
          rw [hlk] at h
          have hany : (fields.any fun p => p.1 == "features") = true := by
            rw [← lookupField_isSome, hlk]; rfl
          cases v with
          | arr feats =>
            simp only [wellFormedFeatures] at h
            by_cases hfe : feats.isEmpty
            · refine ⟨"No active alerts for this state.", ?_, Or.inr (Or.inl rfl)⟩
              simp [getAlertsData, Json.falsy, hemp, pyContains, hany,
                pyGetItem, hlk, hfe, exceptBind_ok, exceptPure]
            · obtain ⟨blocks, hb⟩ := mapExcept_formatAlert_wellFormed feats h
              refine ⟨String.intercalate "\n---\n" blocks, ?_,
                Or.inr (Or.inr ⟨blocks, rfl, feats, hb⟩)⟩
              simp [getAlertsData, Json.falsy, hemp, pyContains, hany,
                pyGetItem, hlk, hfe, pyIter, hb,
                exceptBind_ok, exceptBind_error, exceptPure, exceptMap_ok]
          | null =>
            refine ⟨"No active alerts for this state.", ?_, Or.inr (Or.inl rfl)⟩
            simp [getAlertsData, Json.falsy, hemp, pyContains, hany,
              pyGetItem, hlk, exceptBind_ok, exceptPure]
          | bool b =>
            cases b with
            | true => simp [wellFormedFeatures, Json.falsy] at h
            | false =>
              refine ⟨"No active alerts for this state.", ?_, Or.inr (Or.inl rfl)⟩
              simp [getAlertsData, Json.falsy, hemp, pyContains, hany,
                pyGetItem, hlk, exceptBind_ok, exceptPure]
          | num n =>
            simp only [wellFormedFeatures, Json.falsy] at h
            refine ⟨"No active alerts for this state.", ?_, Or.inr (Or.inl rfl)⟩
            simp [getAlertsData, Json.falsy, hemp, pyContains, hany,
              pyGetItem, hlk, h, exceptBind_ok, exceptPure]
          | str s =>
            simp only [wellFormedFeatures, Json.falsy] at h
            refine ⟨"No active alerts for this state.", ?_, Or.inr (Or.inl rfl)⟩
            simp [getAlertsData, Json.falsy, hemp, pyContains, hany,
              pyGetItem, hlk, h, exceptBind_ok, exceptPure]
          | obj fs =>
            simp only [wellFormedFeatures, Json.falsy] at h
            refine ⟨"No active alerts for this state.", ?_, Or.inr (Or.inl rfl)⟩
            simp [getAlertsData, Json.falsy, hemp, pyContains, hany,
              pyGetItem, hlk, h, exceptBind_ok, exceptPure]
    | null => simp [wellFormedAlertsData] at h
    | bool b => simp [wellFormedAlertsData] at h
    | num n => simp [wellFormedAlertsData] at h
    | str s => simp [wellFormedAlertsData] at h
    | arr elems => simp [wellFormedAlertsData] at h

theorem getAlerts_wellFormed_no_exception_witness :
    wellFormedAlertsData
      (makeNwsRequest alertsTransportOneFeature (alertsUrl "CA")) = true ∧
    ∃ s, getAlerts alertsTransportOneFeature "CA" = Except.ok s ∧
      (s = "Unable to fetch alerts or no alerts found." ∨
       s = "No active alerts for this state." ∨
       ∃ blocks : List String, s = String.intercalate "\n---\n" blocks ∧
         ∃ feats : List Json, mapExcept formatAlert feats = Except.ok blocks) :=
  ⟨rfl, getAlerts_wellFormed_no_exception alertsTransportOneFeature "CA" rfl⟩


/-- C3: a truthy points-lookup response lacking `properties.forecast` makes
the unguarded nested access in `getForecast` raise `KeyError` (escaping the
handler) rather than return any fallback string; likewise a truthy second
response lacking `properties.periods`. -/
theorem getForecast_unguarded_access_raises :
    getForecast pointsTransportNoForecast "39.0" "-77.0" = Except.error PyErr.keyError ∧
    getForecast forecastTransportNoPeriods "39.0" "-77.0" = Except.error PyErr.keyError :=
  ⟨rfl, rfl⟩

/-- C4: if the points lookup yields the `None` sentinel, `getForecast`
returns exactly `"Unable to fetch forecast data for this location."` having
requested only the points URL; if the points lookup succeeds truthily and the
forecast fetch yields the sentinel, it returns exactly
`"Unable to fetch detailed forecast."`. -/
theorem getForecast_two_fallbacks (transport : String → HttpOutcome)
    (latitude longitude : String) :
    (makeNwsRequest transport (pointsUrl latitude longitude) = none →
      getForecastT transport latitude longitude =
        (Except.ok "Unable to fetch forecast data for this location.",
          [pointsUrl latitude longitude])) ∧
    (∀ pd furl, makeNwsRequest transport (pointsUrl latitude longitude) = some pd →
      pd.falsy = false →
      propsField pd "forecast" = Except.ok furl →
      makeNwsRequestJson transport furl = none →
      getForecast transport latitude longitude =
        Except.ok "Unable to fetch detailed forecast.") := by
  constructor
  · intro h
    simp [getForecastT, h]
  · intro pd furl h1 h2 h3 h4
    simp [getForecast, getForecastT, h1, h2, h3, h4]

theorem getForecast_two_fallbacks_witness :
    getForecastT (fun _ => HttpOutcome.transportError) "39.0" "-77.0" =
      (Except.ok "Unable to fetch forecast data for this location.",
        [pointsUrl "39.0" "-77.0"]) ∧
    getForecast forecastTransportSecondFails "39.0" "-77.0" =
      Except.ok "Unable to fetch detailed forecast." :=
  ⟨(getForecast_two_fallbacks (fun _ => HttpOutcome.transportError) "39.0" "-77.0").1 rfl,
   (getForecast_two_fallbacks forecastTransportSecondFails "39.0" "-77.0").2
     pointsDataWithForecast (Json.str gridForecastUrl) rfl rfl rfl rfl⟩

/-- C5: when both fetches succeed truthily and `properties.periods` is a list
of `n` periods whose first five format successfully, `getForecast` returns
the `min n 5` formatted blocks — the first periods, in order — joined by
`"\n---\n"`. -/
theorem getForecast_five_periods (transport : String → HttpOutcome)
    (latitude longitude : String) (pd : Json) (furlS : String) (fd : Json)
    (periods : List Json) (blocks : List String)
    (h1 : makeNwsRequest transport (pointsUrl latitude longitude) = some pd)
    (h2 : pd.falsy = false)
    (h3 : propsField pd "forecast" = Except.ok (Json.str furlS))
    (h4 : makeNwsRequest transport furlS = some fd)
    (h5 : fd.falsy = false)
    (h6 : propsField fd "periods" = Except.ok (Json.arr periods))
    (h7 : mapExcept formatForecastPeriod (periods.take 5) = Except.ok blocks) :
    getForecast transport latitude longitude =
      Except.ok (String.intercalate "\n---\n" blocks) ∧
    blocks.length = min periods.length 5 := by
  constructor
  · simp [getForecast, getForecastT, h1, h2, h3, h4, h5, h6, makeNwsRequestJson,
      pySlice5, pyIter, h7, exceptBind_ok, exceptBind_error, exceptPure, exceptMap_ok]
  · have hlen := mapExcept_length formatForecastPeriod _ _ h7
    simp only [List.length_take] at hlen
    omega

theorem getForecast_five_periods_witness :
    getForecast forecastTransportSeven "39.0" "-77.0" =
      Except.ok (String.intercalate "\n---\n"
        (["P1", "P2", "P3", "P4", "P5"].map periodBlock)) ∧
    (["P1", "P2", "P3", "P4", "P5"].map periodBlock).length = min sevenPeriods.length 5 :=
  getForecast_five_periods forecastTransportSeven "39.0" "-77.0"
    pointsDataWithForecast gridForecastUrl forecastDataSeven sevenPeriods
    (["P1", "P2", "P3", "P4", "P5"].map periodBlock) rfl rfl rfl rfl rfl rfl rfl

/-- C6: whenever the adapter yields the `None` sentinel, or a value on which
the `"features"` membership test succeeds and is negative, `getAlerts`
returns exactly `"Unable to fetch alerts or no alerts found."`. -/
theorem getAlerts_fetch_failure_fallback (transport : String → HttpOutcome)
    (state : String)
    (h : makeNwsRequest transport (alertsUrl state) = none ∨
      ∃ j, makeNwsRequest transport (alertsUrl state) = some j ∧
        pyContains "features" j = Except.ok false) :
    getAlerts transport state = Except.ok "Unable to fetch alerts or no alerts found." := by
  unfold getAlerts
  rcases h with h | ⟨j, hj, hc⟩
  · rw [h]; rfl
  · rw [hj]
    by_cases hf : j.falsy
    · simp [getAlertsData, hf]
    · simp [getAlertsData, hf, hc, exceptBind_ok, exceptPure]

theorem getAlerts_fetch_failure_fallback_witness :
    getAlerts (fun _ => HttpOutcome.transportError) "XX" =
      Except.ok "Unable to fetch alerts or no alerts found." ∧
    getAlerts alertsTransportNoFeatures "XX" =
      Except.ok "Unable to fetch alerts or no alerts found." :=
  ⟨getAlerts_fetch_failure_fallback (fun _ => HttpOutcome.transportError) "XX" (Or.inl rfl),
   getAlerts_fetch_failure_fallback alertsTransportNoFeatures "XX"
     (Or.inr ⟨Json.obj [("title", Json.str "watches and warnings")], rfl, rfl⟩)⟩

/-- C7: a present-but-empty `"features"` list makes `getAlerts` return
exactly `"No active alerts for this state."`; a non-empty list of `n`
features whose formatting succeeds yields the `n` blocks joined by
`"\n---\n"`, in the original feature order. -/
theorem getAlerts_features_empty_or_formatted (transport : String → HttpOutcome)
    (state : String) (fields : List (String × Json)) :
    (makeNwsRequest transport (alertsUrl state) = some (Json.obj fields) →
      lookupField fields "features" = some (Json.arr []) →
      getAlerts transport state = Except.ok "No active alerts for this state.") ∧
    (∀ feats blocks, makeNwsRequest transport (alertsUrl state) = some (Json.obj fields) →
      lookupField fields "features" = some (Json.arr feats) →
      feats ≠ [] →
      mapExcept formatAlert feats = Except.ok blocks →
      getAlerts transport state = Except.ok (String.intercalate "\n---\n" blocks) ∧
        blocks.length = feats.length) := by
  have hne : ∀ v, lookupField fields "features" = some v → fields.isEmpty = false := by
    intro v hv
    cases fields with
    | nil => simp [lookupField] at hv
    | cons p fs => rfl
  constructor
  · intro hd hlk
    have hany : (fields.any fun p => p.1 == "features") = true := by
      rw [← lookupField_isSome, hlk]; rfl
    unfold getAlerts
    rw [hd]
    simp [getAlertsData, Json.falsy, hne _ hlk, pyContains, hany, pyGetItem, hlk,
      exceptBind_ok, exceptPure]
  · intro feats blocks hd hlk hfe hmap
    have hany : (fields.any fun p => p.1 == "features") = true := by
      rw [← lookupField_isSome, hlk]; rfl
    have hfe' : feats.isEmpty = false := by
      cases feats with
      | nil => exact absurd rfl hfe
      | cons a l => rfl
    constructor
    · unfold getAlerts
      rw [hd]
      simp [getAlertsData, Json.falsy, hne _ hlk, pyContains, hany, pyGetItem, hlk,
        hfe', pyIter, hmap, exceptBind_ok, exceptPure, exceptMap_ok]
    · exact mapExcept_length formatAlert _ _ hmap

theorem getAlerts_features_empty_or_formatted_witness :
    getAlerts alertsTransportEmptyFeatures "XX" =
      Except.ok "No active alerts for this state." ∧
    (getAlerts alertsTransportTwoFeatures "CA" =
        Except.ok (String.intercalate "\n---\n" [alertBlockFlood, alertBlockBare]) ∧
      ([alertBlockFlood, alertBlockBare] : List String).length =
        ([alertFeatureFlood, alertFeatureBare] : List Json).length) :=
  ⟨(getAlerts_features_empty_or_formatted alertsTransportEmptyFeatures "XX"
      [("features", Json.arr [])]).1 rfl rfl,
   (getAlerts_features_empty_or_formatted alertsTransportTwoFeatures "CA"
      [("features", Json.arr [alertFeatureFlood, alertFeatureBare])]).2
     [alertFeatureFlood, alertFeatureBare] [alertBlockFlood, alertBlockBare]
     rfl rfl (by simp) rfl⟩

/-- C8: with any subset of the five optional fields present (as strings),
`formatAlert` succeeds and renders all five labelled lines, substituting the
fixed default for each absent field and the given value for each present
field. -/
theorem formatAlert_optional_defaults (e a sv d i : Option String) :
    formatAlert (Json.obj [("properties", Json.obj
      (optField "event" e ++ optField "areaDesc" a ++ optField "severity" sv ++
        optField "description" d ++ optField "instruction" i))]) =
    Except.ok ("\n    Event: " ++ e.getD "Unknown" ++
      "\n    Area: " ++ a.getD "Unknown" ++
      "\n    Severity: " ++ sv.getD "Unknown" ++
      "\n    Description: " ++ d.getD "No description available" ++
      "\n    Instructions: " ++ i.getD "No specific instructions provided" ++
      "\n    ") := by
  cases e <;> cases a <;> cases sv <;> cases d <;> cases i <;> rfl

/-- C9: when both fetches succeed truthily and `properties.periods` is the
empty list, `getForecast` returns the empty string (the join of zero
blocks), not a fallback or error message. -/
theorem getForecast_empty_periods_empty_string (transport : String → HttpOutcome)
    (latitude longitude : String) (pd fd : Json) (furlS : String)
    (h1 : makeNwsRequest transport (pointsUrl latitude longitude) = some pd)
    (h2 : pd.falsy = false)
    (h3 : propsField pd "forecast" = Except.ok (Json.str furlS))
    (h4 : makeNwsRequest transport furlS = some fd)
    (h5 : fd.falsy = false)
    (h6 : propsField fd "periods" = Except.ok (Json.arr [])) :
    getForecast transport latitude longitude = Except.ok "" := by
  simp [getForecast, getForecastT, h1, h2, h3, h4, h5, h6, makeNwsRequestJson,
    pySlice5, pyIter, mapExcept, exceptBind_ok, exceptPure, exceptMap_ok,
    String.intercalate]

theorem getForecast_empty_periods_empty_string_witness :
    getForecast forecastTransportEmptyPeriods "39.0" "-77.0" = Except.ok "" :=
  getForecast_empty_periods_empty_string forecastTransportEmptyPeriods "39.0" "-77.0"
    pointsDataWithForecast (Json.obj [("properties", Json.obj [("periods", Json.arr [])])])
    gridForecastUrl rfl rfl rfl rfl rfl rfl

/-- C10: a successful points lookup that parses to the empty JSON object is
conflated with fetch failure: `getForecast` returns exactly
`"Unable to fetch forecast data for this location."` and requests only the
points URL. -/
theorem getForecast_falsy_points_conflated (transport : String → HttpOutcome)
    (latitude longitude : String)
    (h : makeNwsRequest transport (pointsUrl latitude longitude) = some (Json.obj [])) :
    getForecastT transport latitude longitude =
      (Except.ok "Unable to fetch forecast data for this location.",
        [pointsUrl latitude longitude]) := by
  simp [getForecastT, h, Json.falsy]

theorem getForecast_falsy_points_conflated_witness :
    getForecastT pointsTransportEmptyObj "39.0" "-77.0" =
      (Except.ok "Unable to fetch forecast data for this location.",
        [pointsUrl "39.0" "-77.0"]) :=
  getForecast_falsy_points_conflated pointsTransportEmptyObj "39.0" "-77.0" rfl
